import Mathlib

/-!
Shallow embedding of the Mission Peak Weather worker's report-generation
pipeline (src/index.js).  JavaScript numbers are modelled as exact rationals
(ℚ); `Math.round` is `⌊x + 1/2⌋` (JS rounds halves toward +∞); the JS `%`
operator is `Int.tmod` (truncated remainder, sign of the dividend); JS array
indexing that can yield `undefined` is modelled with `Option` (out-of-range
reads inside a successfully selected record, which no claim exercises, are
modelled with a default of 0 via `List.getD`).  Fallible pipeline steps
return `Except String`.
-/

namespace MissionWeather

/-- JS `Math.round`: round to nearest, halves toward positive infinity. -/
def jsRound (x : ℚ) : ℤ := ⌊x + 1/2⌋

/-- A parsed timestamp, keeping exactly the fields the source inspects via
`getHours`, `getDate`, `getMonth`. -/
structure Timestamp where
  hours : ℕ
  date : ℕ
  month : ℕ
deriving DecidableEq, Repr

/-- The hourly weather series returned by the forecast provider: parallel
arrays keyed by the `time` array (source: the `hourly` object consumed by
`getNextMorningData`). -/
structure HourlyWeather where
  time : List Timestamp
  temperature_2m : List ℚ
  relative_humidity_2m : List ℚ
  wind_speed_10m : List ℚ
  wind_direction_10m : List ℚ
  cloud_cover : List ℚ
  cloud_cover_low : List ℚ
  cloud_cover_mid : List ℚ
  cloud_cover_high : List ℚ
  precipitation_probability : List ℚ
  shortwave_radiation : List ℚ
  cape : List ℚ
deriving Repr

/-- The hourly air-quality series (`hourly` object of the air-quality
provider): a `us_aqi` array parallel to `time`. -/
structure HourlyAQ where
  time : List Timestamp
  us_aqi : List ℚ
deriving Repr

/-- The single-hour record built by `getNextMorningData`. -/
structure Morning where
  temperature : ℚ
  humidity : ℚ
  windSpeed : ℚ
  windDirection : ℚ
  cloudCover : ℚ
  lowClouds : ℚ
  midClouds : ℚ
  highClouds : ℚ
  precipitationProbability : ℚ
  solarRadiation : ℚ
  cape : ℚ
deriving Repr

/-- The predicate of the `findIndex` callback in `getNextMorningData` and in
the inline air-quality lookups: match on hour-of-day, day-of-month and month
of the target time. -/
def matchesTarget (targetHour targetDate targetMonth : ℕ) (t : Timestamp) : Bool :=
  t.hours == targetHour && t.date == targetDate && t.month == targetMonth

/-- `formatTime` from the source: render an hour 0–23 as 12-hour am/pm. -/
def formatTime (hour : ℕ) : String :=
  if hour = 0 then "12am"
  else if hour = 12 then "12pm"
  else if hour < 12 then toString hour ++ "am"
  else toString (hour - 12) ++ "pm"

/-- `getNextMorningData`: linear scan of the timestamp array for the target
(hour, day, month); throws (`Except.error`) when no index matches, otherwise
reads every parallel array at the found index.  The target date fields stand
for the source's `tomorrow` value computed from the current clock. -/
def getNextMorningData (hourlyData : HourlyWeather)
    (targetHour targetDate targetMonth : ℕ) : Except String Morning :=
  match hourlyData.time.findIdx? (matchesTarget targetHour targetDate targetMonth) with
  | none => Except.error ("No weather data available for " ++ formatTime targetHour)
  | some index => Except.ok
      { temperature := hourlyData.temperature_2m.getD index 0
        humidity := hourlyData.relative_humidity_2m.getD index 0
        windSpeed := hourlyData.wind_speed_10m.getD index 0
        windDirection := hourlyData.wind_direction_10m.getD index 0
        cloudCover := hourlyData.cloud_cover.getD index 0
        lowClouds := hourlyData.cloud_cover_low.getD index 0
        midClouds := hourlyData.cloud_cover_mid.getD index 0
        highClouds := hourlyData.cloud_cover_high.getD index 0
        precipitationProbability := hourlyData.precipitation_probability.getD index 0
        solarRadiation := hourlyData.shortwave_radiation.getD index 0
        cape := hourlyData.cape.getD index 0 }

/-- The inline air-quality lookup of `generateWeatherReport`:
`hourly.us_aqi[hourly.time.findIndex(...)]`.  When `findIndex` returns −1
the JS read `us_aqi[-1]` is `undefined`, modelled as `none`; no exception is
thrown. -/
def aqAtTarget (aq : HourlyAQ) (targetHour targetDate targetMonth : ℕ) : Option ℚ :=
  match aq.time.findIdx? (matchesTarget targetHour targetDate targetMonth) with
  | none => none
  | some index => aq.us_aqi.get? index

/-- `getAQIDescription` from the source. -/
def getAQIDescription (aqi : ℚ) : String :=
  if aqi ≤ 50 then "Good"
  else if aqi ≤ 100 then "Moderate"
  else if aqi ≤ 150 then "Unhealthy for Sensitive Groups"
  else if aqi ≤ 200 then "Unhealthy"
  else if aqi ≤ 300 then "Very Unhealthy"
  else "Hazardous"

/-- `detectInversion`: summit strictly warmer than trailhead. -/
def detectInversion (trailheadTemp summitTemp : ℚ) : Bool :=
  decide (summitTemp > trailheadTemp)

/-- `formatWindSpeed`: bucket a wind speed (mph) into a description. -/
def formatWindSpeed (speed : ℚ) : String :=
  if speed < 5 then "Calm"
  else if speed < 10 then "Light breeze"
  else if speed < 15 then "Moderate breeze"
  else if speed < 20 then "Strong breeze"
  else "High winds"

/-- The `directions` array of `getWindDirection`. -/
def directions : List String := ["N", "NE", "E", "SE", "S", "SW", "W", "NW"]

/-- `getWindDirection`: `directions[Math.round(degrees / 45) % 8]`.  JS `%`
is truncated remainder, so a negative index reads `undefined` (`none`). -/
def getWindDirection (degrees : ℚ) : Option String :=
  let index := (jsRound (degrees / 45)).tmod 8
  if 0 ≤ index then directions.get? index.toNat else none

/-- Temperature adjustment factor of `estimateSweatLoss` (`tempFactor`). -/
def tempFactor (temperature : ℚ) : ℚ := 1 + ((temperature - 70) / 5) * 0.1

/-- Humidity adjustment factor of `estimateSweatLoss` (`humidityFactor`). -/
def humidityFactor (humidity : ℚ) : ℚ := 1 + ((humidity - 50) / 10) * 0.05

/-- Wind adjustment factor of `estimateSweatLoss` (`windFactor`). -/
def windFactor (windSpeed : ℚ) : ℚ := 1 - (windSpeed / 5) * 0.05

/-- Solar-radiation adjustment factor of `estimateSweatLoss`
(`solarFactor`). -/
def solarFactor (solarRadiation : ℚ) : ℚ :=
  1 + min (solarRadiation / 1000) 1 * 0.75

/-- Result record of `estimateSweatLoss`. -/
structure SweatEstimate where
  liters : ℚ
  duration : ℤ
deriving DecidableEq, Repr

/-- `estimateSweatLoss` from the source.  The `elevation` parameter is
accepted but unused, exactly as in the source (the hardcoded
`ELEVATION_GAIN` of 2150 ft is used instead). -/
def estimateSweatLoss (temperature humidity windSpeed elevation solarRadiation : ℚ) :
    SweatEstimate :=
  let _ := elevation
  let DISTANCE : ℚ := 6.22
  let ELEVATION_GAIN : ℚ := 2150
  let basePace : ℚ := 10
  let elevationFactor := ELEVATION_GAIN / 1000
  let estimatedDuration := (basePace + elevationFactor) * DISTANCE
  let baseSweatRate : ℚ := 650
  let elevationSweatFactor := 1 + (ELEVATION_GAIN / 1000) * 0.05
  let sweatLoss := baseSweatRate * tempFactor temperature * humidityFactor humidity *
      windFactor windSpeed * elevationSweatFactor * solarFactor solarRadiation *
      (estimatedDuration / 60)
  let sweatLossL := sweatLoss / 1000
  { liters := (jsRound (sweatLossL * 10) : ℚ) / 10
    duration := jsRound estimatedDuration }

/-- `getGloveRecommendation` from the source. -/
def getGloveRecommendation (trailheadTemp summitTemp : ℚ) : String :=
  let avgTemp := (trailheadTemp + summitTemp) / 2
  if avgTemp < 40 then "Yes, definitely"
  else if avgTemp < 45 then "Yes, recommended"
  else if avgTemp < 52 then "Maybe, if you run cold"
  else "No"

/-- `getThunderstormPotential` from the source: `null` becomes `none`. -/
def getThunderstormPotential (cape : ℚ) : Option String :=
  if cape > 2500 then some "High thunderstorm potential"
  else if cape > 1500 then some "Moderate thunderstorm potential"
  else if cape > 1000 then some "Low thunderstorm potential"
  else none

/-- The air-quality line of the report: shown only when the (possibly
undefined) summit AQI exceeds 100; in JS `undefined > 100` is false. -/
def airQualityLine (summitAQIndex : Option ℚ) : String :=
  match summitAQIndex with
  | some v =>
      if v > 100 then
        "• Air Quality: " ++ toString v ++ " (" ++ getAQIDescription v ++ ")\n"
      else ""
  | none => ""

/-- The precipitation line of the report: shown only above 10 %. -/
def precipitationLine (precipitationProbability : ℚ) : String :=
  if precipitationProbability > 10 then
    "• Chance of Rain: " ++ toString precipitationProbability ++ "%\n"
  else ""

/-- The thunderstorm line of the report: shown only when
`getThunderstormPotential` is non-null. -/
def thunderstormLine (cape : ℚ) : String :=
  match getThunderstormPotential cape with
  | some potential => "• " ++ potential ++ "\n"
  | none => ""

/-- Report text from the header up to (not including) the precipitation
line: header, temperature/humidity line, wind line. -/
def reportBeforePrecip (trailheadTemp : ℤ) (trailheadMorning summitMorning : Morning)
    (targetHour : ℕ) : String :=
  let timeStr := if targetHour = 5 then "Tomorrow Morning"
    else "Tomorrow at " ++ formatTime targetHour
  "🌄 *Mission Peak Weather Report for " ++ timeStr ++ "* 🌄\n\n" ++
    ("• Temperature: " ++ toString trailheadTemp ++ "°F, Humidity: " ++
      toString trailheadMorning.humidity ++ "%\n") ++
    ("• Wind: " ++ formatWindSpeed summitMorning.windSpeed ++ " from " ++
      (getWindDirection summitMorning.windDirection).getD "undefined" ++ "\n")

/-- Report text after the precipitation line: thunderstorm line, air-quality
line, cloud-cover line, inversion line, sweat-loss line, glove line and
footer. -/
def reportAfterPrecip (trailheadTemp summitTemp : ℤ) (summitMorning : Morning)
    (summitAQIndex : Option ℚ) (sweatEstimate : SweatEstimate) : String :=
  thunderstormLine summitMorning.cape ++
    airQualityLine summitAQIndex ++
    ("• Cloud Cover: Low " ++ toString (jsRound summitMorning.lowClouds) ++
      "%, Mid " ++ toString (jsRound summitMorning.midClouds) ++
      "%, High " ++ toString (jsRound summitMorning.highClouds) ++ "%\n") ++
    ("• Temperature Inversion: " ++
      (if detectInversion (trailheadTemp : ℚ) (summitTemp : ℚ) then "Yes" else "No") ++ "\n") ++
    ("• Estimated Sweat Loss: " ++ toString sweatEstimate.liters ++ "L\n") ++
    ("• Gloves Needed: " ++
      getGloveRecommendation (trailheadTemp : ℚ) (summitTemp : ℚ) ++ "\n\n") ++
    "_Data provided by Open-Meteo API_"

/-- The pure tail of `generateWeatherReport` (source lines 275–313): derive
the rounded temperatures, the sweat estimate and the conditional lines from
the two selected records and the summit AQI, and concatenate the report. -/
def composeReport (summitMorning trailheadMorning : Morning)
    (summitAQIndex : Option ℚ) (targetHour : ℕ) : String :=
  let summitTemp := jsRound summitMorning.temperature
  let trailheadTemp := jsRound trailheadMorning.temperature
  let sweatEstimate := estimateSweatLoss
    (((trailheadTemp : ℚ) + (summitTemp : ℚ)) / 2)
    ((trailheadMorning.humidity + summitMorning.humidity) / 2)
    ((trailheadMorning.windSpeed + summitMorning.windSpeed) / 2)
    2150
    ((trailheadMorning.solarRadiation + summitMorning.solarRadiation) / 2)
  reportBeforePrecip trailheadTemp trailheadMorning summitMorning targetHour ++
    precipitationLine summitMorning.precipitationProbability ++
    reportAfterPrecip trailheadTemp summitTemp summitMorning summitAQIndex sweatEstimate

/-- `generateWeatherReport` on already-fetched series: select the target
hour from both weather series (summit first — the first failure aborts),
look up both air-quality values (never aborting; the trailhead value is
computed but unused, as in the source), and compose the report text. -/
def generateWeatherReport (summitData trailheadData : HourlyWeather)
    (summitAQData trailheadAQData : HourlyAQ)
    (targetHour targetDate targetMonth : ℕ) : Except String String := do
  let summitMorning ← getNextMorningData summitData targetHour targetDate targetMonth
  let trailheadMorning ← getNextMorningData trailheadData targetHour targetDate targetMonth
  let summitAQIndex := aqAtTarget summitAQData targetHour targetDate targetMonth
  let _trailheadAQIndex := aqAtTarget trailheadAQData targetHour targetDate targetMonth
  return composeReport summitMorning trailheadMorning summitAQIndex targetHour

/-- Strictness rank of a glove recommendation, for stating monotonicity:
higher rank means a stronger recommendation to bring gloves. -/
def gloveRank (r : String) : ℕ :=
  if r = "Yes, definitely" then 3
  else if r = "Yes, recommended" then 2
  else if r = "Maybe, if you run cold" then 1
  else 0

theorem jsRound_mono {x y : ℚ} (h : x ≤ y) : jsRound x ≤ jsRound y :=
  Int.floor_le_floor (by linarith)

theorem round1_mono {x y : ℚ} (h : x ≤ y) :
    (jsRound x : ℚ) / 10 ≤ (jsRound y : ℚ) / 10 :=
  div_le_div_of_nonneg_right (by exact_mod_cast jsRound_mono h) (by norm_num)

/-- Unfolding of the liters field of `estimateSweatLoss`. -/
theorem estimateSweatLoss_liters (temperature humidity windSpeed elevation solarRadiation : ℚ) :
    (estimateSweatLoss temperature humidity windSpeed elevation solarRadiation).liters =
      (jsRound (650 * tempFactor temperature * humidityFactor humidity *
        windFactor windSpeed * (1 + (2150 / 1000) * 0.05) * solarFactor solarRadiation *
        (((10 : ℚ) + 2150 / 1000) * 6.22 / 60) / 1000 * 10) : ℚ) / 10 := rfl

/-- C3: `detectInversion` is true exactly when the summit temperature is
strictly greater than the trailhead temperature; equal temperatures and
summit ≤ trailhead both give false. -/
theorem C3_inversion_strict : ∀ trailheadTemp summitTemp : ℚ,
    (detectInversion trailheadTemp summitTemp = true ↔ trailheadTemp < summitTemp) ∧
    (trailheadTemp = summitTemp → detectInversion trailheadTemp summitTemp = false) ∧
    (summitTemp ≤ trailheadTemp → detectInversion trailheadTemp summitTemp = false) := by
  intro t s
  refine ⟨by simp [detectInversion], ?_, ?_⟩
  · intro h; subst h; simp [detectInversion]
  · intro h; simp [detectInversion, not_lt.mpr h]

theorem C3_inversion_strict_witness :
    detectInversion 50 50 = false ∧ (detectInversion 40 50 = true ↔ (40 : ℚ) < 50) :=
  ⟨(C3_inversion_strict 50 50).2.1 rfl, (C3_inversion_strict 40 50).1⟩

/-- C5: for every wind speed in [0, ∞), `formatWindSpeed` realises exactly
the buckets [0,5) Calm, [5,10) Light breeze, [10,15) Moderate breeze,
[15,20) Strong breeze, [20,∞) High winds, so the buckets are exhaustive and
non-overlapping and each boundary value maps to the higher bucket. -/
theorem C5_wind_buckets : ∀ speed : ℚ, 0 ≤ speed →
    (speed < 5 → formatWindSpeed speed = "Calm") ∧
    (5 ≤ speed ∧ speed < 10 → formatWindSpeed speed = "Light breeze") ∧
    (10 ≤ speed ∧ speed < 15 → formatWindSpeed speed = "Moderate breeze") ∧
    (15 ≤ speed ∧ speed < 20 → formatWindSpeed speed = "Strong breeze") ∧
    (20 ≤ speed → formatWindSpeed speed = "High winds") := by
  intro s _
  unfold formatWindSpeed
  refine ⟨?_, ?_, ?_, ?_, ?_⟩
  · intro h; rw [if_pos h]
  · rintro ⟨h1, h2⟩; rw [if_neg (not_lt.mpr h1), if_pos h2]
  · rintro ⟨h1, h2⟩
    rw [if_neg (not_lt.mpr (by linarith)), if_neg (not_lt.mpr h1), if_pos h2]
  · rintro ⟨h1, h2⟩
    rw [if_neg (not_lt.mpr (by linarith)), if_neg (not_lt.mpr (by linarith)),
      if_neg (not_lt.mpr h1), if_pos h2]
  · intro h
    rw [if_neg (not_lt.mpr (by linarith)), if_neg (not_lt.mpr (by linarith)),
      if_neg (not_lt.mpr (by linarith)), if_neg (not_lt.mpr h)]

theorem C5_wind_buckets_witness :
    (0 : ℚ) ≤ 5 ∧ formatWindSpeed 5 = "Light breeze" :=
  ⟨by norm_num, (C5_wind_buckets 5 (by norm_num)).2.1 ⟨le_refl 5, by norm_num⟩⟩

/-- C7: the glove recommendation buckets the average of trailhead and summit
temperature with cutoffs 40, 45, 52, and its strictness rank is
non-increasing as the average temperature rises. -/
theorem C7_gloves : (∀ trailheadTemp summitTemp : ℚ,
      ((trailheadTemp + summitTemp) / 2 < 40 →
        getGloveRecommendation trailheadTemp summitTemp = "Yes, definitely") ∧
      (40 ≤ (trailheadTemp + summitTemp) / 2 ∧ (trailheadTemp + summitTemp) / 2 < 45 →
        getGloveRecommendation trailheadTemp summitTemp = "Yes, recommended") ∧
      (45 ≤ (trailheadTemp + summitTemp) / 2 ∧ (trailheadTemp + summitTemp) / 2 < 52 →
        getGloveRecommendation trailheadTemp summitTemp = "Maybe, if you run cold") ∧
      (52 ≤ (trailheadTemp + summitTemp) / 2 →
        getGloveRecommendation trailheadTemp summitTemp = "No")) ∧
    (∀ t₁ s₁ t₂ s₂ : ℚ, (t₁ + s₁) / 2 ≤ (t₂ + s₂) / 2 →
      gloveRank (getGloveRecommendation t₂ s₂) ≤ gloveRank (getGloveRecommendation t₁ s₁)) := by
  constructor
  · intro t s
    unfold getGloveRecommendation
    refine ⟨?_, ?_, ?_, ?_⟩
    · intro h; rw [if_pos h]
    · rintro ⟨h1, h2⟩; rw [if_neg (not_lt.mpr h1), if_pos h2]
    · rintro ⟨h1, h2⟩
      rw [if_neg (not_lt.mpr (by linarith)), if_neg (not_lt.mpr h1), if_pos h2]
    · intro h
      rw [if_neg (not_lt.mpr (by linarith)), if_neg (not_lt.mpr (by linarith)),
        if_neg (not_lt.mpr h)]
  · intro t₁ s₁ t₂ s₂ h
    simp only [getGloveRecommendation]
    split_ifs <;> first | decide | linarith

theorem C7_gloves_witness :
    (45 : ℚ) ≤ (40 + 50) / 2 ∧ (40 + 50 : ℚ) / 2 < 52 ∧
      getGloveRecommendation 40 50 = "Maybe, if you run cold" :=
  ⟨by norm_num, by norm_num,
    (C7_gloves.1 40 50).2.2.1 ⟨by norm_num, by norm_num⟩⟩

/-- Sweat-loss reference model transcribed from the specification's words:
duration (10 + 2150/1000) × 6.22 minutes; volume 650 mL/h times the four
linear adjustment factors and the constant elevation factor, times the
duration in hours; liters rounded to one decimal, duration to the nearest
minute. -/
def specSweatModel (T H W S : ℚ) : SweatEstimate :=
  let durationMinutes : ℚ := (10 + 2150 / 1000) * 6.22
  let totalML : ℚ := 650 * (1 + ((T - 70) / 5) * 0.10) * (1 + ((H - 50) / 10) * 0.05) *
      (1 - (W / 5) * 0.05) * (1 + (2150 / 1000) * 0.05) *
      (1 + min (S / 1000) 1 * 0.75) * (durationMinutes / 60)
  { liters := (jsRound (totalML / 1000 * 10) : ℚ) / 10
    duration := jsRound durationMinutes }

/-- C2: for all inputs, `estimateSweatLoss` computes exactly the reference
model: duration (10 + 2150/1000) × 6.22 minutes rounded to the nearest
minute, volume 650 × temperature, humidity, wind, elevation and solar
factors × duration in hours, converted to liters and rounded to one decimal
place. -/
theorem C2_sweat_model : ∀ T H W elevation S : ℚ,
    estimateSweatLoss T H W elevation S = specSweatModel T H W S := by
  intro T H W e S
  simp only [estimateSweatLoss, specSweatModel, SweatEstimate.mk.injEq]
  constructor
  · congr 2
    simp only [tempFactor, humidityFactor, windFactor, solarFactor]
    ring_nf
  · trivial

/-- C4 (counterexample): with humidity 50, solar radiation 0 and wind speed
200 mph held fixed, raising the temperature from 70 to 75 °F strictly
lowers the sweat-loss estimate (the wind factor is −1 there), so the
estimate is not monotonically increasing in temperature for all input
values. -/
theorem C4_monotone_counterexample :
    (estimateSweatLoss 75 50 200 2150 0).liters <
      (estimateSweatLoss 70 50 200 2150 0).liters := by
  rw [estimateSweatLoss_liters, estimateSweatLoss_liters]
  norm_num [tempFactor, humidityFactor, windFactor, solarFactor, jsRound, min_def]

/-- C4 (amended): holding the other inputs fixed, the sweat-loss estimate is
monotone non-decreasing in temperature, humidity and solar radiation and
monotone non-increasing in wind speed, provided the adjustment factors of
the fixed inputs are nonnegative (true of all physically meaningful
values). -/
theorem C4_monotone_amended :
    (∀ e T₁ T₂ H W S : ℚ, T₁ ≤ T₂ →
      0 ≤ humidityFactor H → 0 ≤ windFactor W → 0 ≤ solarFactor S →
      (estimateSweatLoss T₁ H W e S).liters ≤ (estimateSweatLoss T₂ H W e S).liters) ∧
    (∀ e T H₁ H₂ W S : ℚ, H₁ ≤ H₂ →
      0 ≤ tempFactor T → 0 ≤ windFactor W → 0 ≤ solarFactor S →
      (estimateSweatLoss T H₁ W e S).liters ≤ (estimateSweatLoss T H₂ W e S).liters) ∧
    (∀ e T H W S₁ S₂ : ℚ, S₁ ≤ S₂ →
      0 ≤ tempFactor T → 0 ≤ humidityFactor H → 0 ≤ windFactor W →
      (estimateSweatLoss T H W e S₁).liters ≤ (estimateSweatLoss T H W e S₂).liters) ∧
    (∀ e T H W₁ W₂ S : ℚ, W₁ ≤ W₂ →
      0 ≤ tempFactor T → 0 ≤ humidityFactor H → 0 ≤ solarFactor S →
      (estimateSweatLoss T H W₂ e S).liters ≤ (estimateSweatLoss T H W₁ e S).liters) := by
  refine ⟨?_, ?_, ?_, ?_⟩
  · intro e T₁ T₂ H W S h hH hW hS
    rw [estimateSweatLoss_liters, estimateSweatLoss_liters]
    apply round1_mono
    gcongr
    unfold tempFactor
    linarith
  · intro e T H₁ H₂ W S h hT hW hS
    rw [estimateSweatLoss_liters, estimateSweatLoss_liters]
    apply round1_mono
    gcongr
    unfold humidityFactor
    linarith
  · intro e T H W S₁ S₂ h hT hH hW
    rw [estimateSweatLoss_liters, estimateSweatLoss_liters]
    apply round1_mono
    gcongr
    unfold solarFactor
    have : min (S₁ / 1000) 1 ≤ min (S₂ / 1000) 1 := min_le_min (by linarith) le_rfl
    linarith
  · intro e T H W₁ W₂ S h hT hH hS
    rw [estimateSweatLoss_liters, estimateSweatLoss_liters]
    apply round1_mono
    gcongr
    unfold windFactor
    linarith

theorem C4_monotone_amended_witness :
    (60 : ℚ) ≤ 80 ∧ 0 ≤ humidityFactor 50 ∧ 0 ≤ windFactor 5 ∧ 0 ≤ solarFactor 500 ∧
      (estimateSweatLoss 60 50 5 2150 500).liters ≤ (estimateSweatLoss 80 50 5 2150 500).liters :=
  ⟨by norm_num, by norm_num [humidityFactor], by norm_num [windFactor],
    by norm_num [solarFactor, min_def],
    C4_monotone_amended.1 2150 60 80 50 5 500 (by norm_num) (by norm_num [humidityFactor])
      (by norm_num [windFactor]) (by norm_num [solarFactor, min_def])⟩

/-- C6: the wind direction label is the 45°-sector index (rounded, modulo 8)
into the eight compass labels: the labeling is periodic with period 360° on
nonnegative compass degrees, with 0° → N, 45° → NE and 360° → N. -/
theorem C6_wind_direction :
    (∀ degrees : ℚ, 0 ≤ degrees →
      getWindDirection (degrees + 360) = getWindDirection degrees) ∧
    getWindDirection 0 = some "N" ∧
    getWindDirection 45 = some "NE" ∧
    getWindDirection 360 = some "N" := by
  refine ⟨?_, ?_, ?_, ?_⟩
  · intro d hd
    have h45 : (d + 360) / 45 = d / 45 + (8 : ℤ) := by push_cast; ring
    have hr : jsRound ((d + 360) / 45) = jsRound (d / 45) + 8 := by
      unfold jsRound
      rw [h45, add_right_comm, Int.floor_add_int]
    have hnn : 0 ≤ jsRound (d / 45) := by
      rw [jsRound, Int.le_floor]
      have : (0 : ℚ) ≤ d / 45 := by positivity
      push_cast
      linarith
    unfold getWindDirection
    rw [hr]
    have htm : (jsRound (d / 45) + 8).tmod 8 = (jsRound (d / 45)).tmod 8 := by
      rw [Int.tmod_eq_emod (by linarith) (by norm_num),
        Int.tmod_eq_emod hnn (by norm_num)]
      omega
    rw [htm]
  · norm_num [getWindDirection, jsRound, directions]
  · norm_num [getWindDirection, jsRound, directions]
    decide
  · norm_num [getWindDirection, jsRound, directions]

theorem C6_wind_direction_witness :
    (0 : ℚ) ≤ 90 ∧ getWindDirection (90 + 360) = getWindDirection 90 :=
  ⟨by norm_num, C6_wind_direction.1 90 (by norm_num)⟩

/-- C10: for every nonnegative compass degrees value, the lookup index
round(d/45) tmod 8 lies in {0,…,7} and `getWindDirection` returns one of the
eight labels, never an out-of-bounds (undefined) result. -/
theorem C10_wind_direction_safe : ∀ degrees : ℚ, 0 ≤ degrees →
    (0 ≤ (jsRound (degrees / 45)).tmod 8 ∧ (jsRound (degrees / 45)).tmod 8 < 8) ∧
    ∃ label, getWindDirection degrees = some label ∧ label ∈ directions := by
  intro d hd
  have hnn : 0 ≤ jsRound (d / 45) := by
    rw [jsRound, Int.le_floor]
    have : (0 : ℚ) ≤ d / 45 := by positivity
    push_cast
    linarith
  have htm : 0 ≤ (jsRound (d / 45)).tmod 8 := Int.tmod_nonneg _ hnn
  have hlt : (jsRound (d / 45)).tmod 8 < 8 := Int.tmod_lt_of_pos _ (by norm_num)
  refine ⟨⟨htm, hlt⟩, ?_⟩
  unfold getWindDirection
  rw [if_pos htm]
  cases hget : directions.get? ((jsRound (d / 45)).tmod 8).toNat with
  | none =>
      exfalso
      rw [List.get?_eq_none] at hget
      simp [directions] at hget
      omega
  | some label => exact ⟨label, rfl, List.get?_mem hget⟩

theorem C10_wind_direction_safe_witness :
    (0 : ℚ) ≤ 100 ∧
      (0 ≤ (jsRound ((100 : ℚ) / 45)).tmod 8 ∧ (jsRound ((100 : ℚ) / 45)).tmod 8 < 8) :=
  ⟨by norm_num, (C10_wind_direction_safe 100 (by norm_num)).1⟩

/-- C1 (amended): a weather series with no index matching the target hour
makes `getNextMorningData` signal the no-matching-hour error, which aborts
report generation; the inline air-quality lookups, however, never abort:
whether the pipeline succeeds depends only on the two weather selections,
and a missing air-quality hour silently yields an undefined AQI. -/
theorem C1_no_matching_hour_amended :
    (∀ (hourlyData : HourlyWeather) (h d m : ℕ),
      hourlyData.time.findIdx? (matchesTarget h d m) = none →
      getNextMorningData hourlyData h d m =
        Except.error ("No weather data available for " ++ formatTime h)) ∧
    (∀ (sw tw : HourlyWeather) (sa ta : HourlyAQ) (h d m : ℕ),
      (generateWeatherReport sw tw sa ta h d m).isOk =
        ((getNextMorningData sw h d m).isOk && (getNextMorningData tw h d m).isOk)) := by
  constructor
  · intro hourlyData h d m hnone
    unfold getNextMorningData
    rw [hnone]
  · intro sw tw sa ta h d m
    unfold generateWeatherReport
    cases hs : getNextMorningData sw h d m <;> cases ht : getNextMorningData tw h d m <;>
      simp [Except.isOk, Except.toBool, pure, Except.pure, hs, ht, bind, Except.bind]

/-- A concrete weather series containing exactly the target hour
(5 o'clock on day 15 of month 9). -/
def wOk : HourlyWeather :=
  { time := [⟨5, 15, 9⟩], temperature_2m := [50], relative_humidity_2m := [60],
    wind_speed_10m := [8], wind_direction_10m := [270], cloud_cover := [50],
    cloud_cover_low := [80], cloud_cover_mid := [10], cloud_cover_high := [5],
    precipitation_probability := [5], shortwave_radiation := [0], cape := [0] }

/-- A concrete air-quality series whose only timestamp (hour 4) does not
match the target hour 5, with an AQI of 500. -/
def aqMiss : HourlyAQ := { time := [⟨4, 15, 9⟩], us_aqi := [500] }

/-- A concrete weather series with no timestamp matching the target hour. -/
def wMiss : HourlyWeather :=
  { time := [⟨4, 15, 9⟩], temperature_2m := [50], relative_humidity_2m := [60],
    wind_speed_10m := [8], wind_direction_10m := [270], cloud_cover := [50],
    cloud_cover_low := [80], cloud_cover_mid := [10], cloud_cover_high := [5],
    precipitation_probability := [5], shortwave_radiation := [0], cape := [0] }

theorem C1_no_matching_hour_amended_witness :
    wMiss.time.findIdx? (matchesTarget 5 15 9) = none ∧
      getNextMorningData wMiss 5 15 9 =
        Except.error ("No weather data available for " ++ formatTime 5) :=
  ⟨by decide, C1_no_matching_hour_amended.1 wMiss 5 15 9 (by decide)⟩

/-- C1 (counterexample): an air-quality series with no index matching the
target hour does not abort the pipeline: with valid weather data the report
is still produced (and the AQI value 500 present in the series is silently
ignored), contradicting the claim that every series without a matching hour
signals NoMatchingHour and produces no report text. -/
theorem C1_no_matching_hour_counterexample :
    aqMiss.time.findIdx? (matchesTarget 5 15 9) = none ∧
      (generateWeatherReport wOk wOk aqMiss aqMiss 5 15 9).isOk = true :=
  ⟨by decide, by rfl⟩

/-- The sweat estimate computed inside `generateWeatherReport` from the two
selected records (averaged rounded temperatures, averaged humidity, wind and
solar radiation, fixed 2150 ft gain). -/
def sweatEstimateOf (summitMorning trailheadMorning : Morning) : SweatEstimate :=
  estimateSweatLoss
    (((jsRound trailheadMorning.temperature : ℚ) + (jsRound summitMorning.temperature : ℚ)) / 2)
    ((trailheadMorning.humidity + summitMorning.humidity) / 2)
    ((trailheadMorning.windSpeed + summitMorning.windSpeed) / 2)
    2150
    ((trailheadMorning.solarRadiation + summitMorning.solarRadiation) / 2)

/-- The part of the composed report that precedes the precipitation line. -/
def reportRest1 (summitMorning trailheadMorning : Morning) (targetHour : ℕ) : String :=
  reportBeforePrecip (jsRound trailheadMorning.temperature) trailheadMorning summitMorning
    targetHour

/-- The part of the composed report that follows the precipitation line. -/
def reportRest2 (summitMorning trailheadMorning : Morning) (summitAQIndex : Option ℚ) : String :=
  reportAfterPrecip (jsRound trailheadMorning.temperature) (jsRound summitMorning.temperature)
    summitMorning summitAQIndex (sweatEstimateOf summitMorning trailheadMorning)

theorem composeReport_decomp (sm tm : Morning) (saq : Option ℚ) (h : ℕ) :
    composeReport sm tm saq h =
      reportRest1 sm tm h ++ precipitationLine sm.precipitationProbability ++
        reportRest2 sm tm saq := rfl

/-- C8: the composed report omits the precipitation line entirely when the
summit precipitation probability is ≤ 10, and includes the line with the
literal percentage value when it is > 10. -/
theorem C8_precipitation_line : ∀ (sm tm : Morning) (saq : Option ℚ) (h : ℕ),
    (sm.precipitationProbability ≤ 10 →
      composeReport sm tm saq h = reportRest1 sm tm h ++ reportRest2 sm tm saq) ∧
    (10 < sm.precipitationProbability →
      composeReport sm tm saq h = reportRest1 sm tm h ++
        ("• Chance of Rain: " ++ toString sm.precipitationProbability ++ "%\n") ++
        reportRest2 sm tm saq) := by
  intro sm tm saq h
  rw [composeReport_decomp]
  constructor
  · intro hp
    rw [precipitationLine, if_neg (not_lt.mpr hp), String.append_empty]
  · intro hp
    rw [precipitationLine, if_pos hp]

/-- A concrete selected record with precipitation probability 55 %. -/
def mRain : Morning :=
  { temperature := 50, humidity := 60, windSpeed := 8, windDirection := 270,
    cloudCover := 50, lowClouds := 80, midClouds := 10, highClouds := 5,
    precipitationProbability := 55, solarRadiation := 0, cape := 0 }

theorem C8_precipitation_line_witness :
    (10 : ℚ) < 55 ∧
      composeReport mRain mRain none 5 = reportRest1 mRain mRain 5 ++
        ("• Chance of Rain: " ++ toString (55 : ℚ) ++ "%\n") ++
        reportRest2 mRain mRain none :=
  ⟨by norm_num, (C8_precipitation_line mRain mRain none 5).2 (by decide)⟩

/-- C9: the produced report text never depends on the trailhead air-quality
series: two runs whose inputs differ only in that series yield identical
results (the trailhead AQI is computed and then never used). -/
theorem C9_trailhead_aq_noninterference :
    ∀ (sw tw : HourlyWeather) (sa ta ta' : HourlyAQ) (h d m : ℕ),
      generateWeatherReport sw tw sa ta h d m = generateWeatherReport sw tw sa ta' h d m := by
  intro sw tw sa ta ta' h d m
  rfl

end MissionWeather
